import Mathlib

/-!
Shallow embedding of src/btrfs-lightning-search/btrfs-indexer2.c.

C byte strings (char arrays) are modelled as lists of byte values
(Nat, each intended below 256).  Machine integers are modelled as Nat;
the code performs no arithmetic on them that can overflow in any claim
below.  Fallible operations return Option or carry an explicit result
code, mirroring the C return conventions.
-/

namespace BtrfsIndexer

/-- One record of the in-memory store; mirrors struct file_entry
(btrfs-indexer2.c lines 16-24).  The arrays path[4096] and name[256]
hold at most 4095 resp. 255 bytes plus a NUL terminator. -/
structure file_entry where
  path : List Nat
  name : List Nat
  inode : Nat
  size : Nat
  mtime : Nat
  mode : Nat
deriving DecidableEq

/-- The two globals file_list and file_count (lines 26-27), bundled as the
explicit state threaded through the embedding.  The list head is the most
recently added entry. -/
structure Store where
  file_list : List file_entry
  file_count : Nat
deriving DecidableEq

/-- Initial state of the globals: empty list, zero counter. -/
def initStore : Store := ⟨[], 0⟩

/-- add_file_entry (lines 30-46).  allocOk models whether malloc succeeds:
on allocation failure the function returns at once (line 33), leaving the
list and the counter unchanged and reporting nothing.  strncpy with buffer
sizes 4096/256 plus the forced terminator keeps at most 4095 path bytes and
255 name bytes.  The new entry is prepended (entry->next = file_list;
file_list = entry) and the counter is incremented. -/
def add_file_entry (allocOk : Bool) (path name : List Nat)
    (inode size mtime mode : Nat) (s : Store) : Store :=
  if allocOk then
    { file_list := ⟨path.take 4095, name.take 255, inode, size, mtime, mode⟩ :: s.file_list,
      file_count := s.file_count + 1 }
  else s

/-- The six data arguments of one add_file_entry call. -/
structure AddArgs where
  path : List Nat
  name : List Nat
  inode : Nat
  size : Nat
  mtime : Nat
  mode : Nat
deriving DecidableEq

/-- The entry that a successful add_file_entry call builds from its
arguments (the strncpy truncations included). -/
def mkEntry (a : AddArgs) : file_entry :=
  ⟨a.path.take 4095, a.name.take 255, a.inode, a.size, a.mtime, a.mode⟩

/-- One add operation: the Bool is the malloc outcome. -/
def applyAdd (s : Store) (op : Bool × AddArgs) : Store :=
  add_file_entry op.1 op.2.path op.2.name op.2.inode op.2.size op.2.mtime op.2.mode s

/-- A sequence of add_file_entry calls run against the initial globals. -/
def runAdds (ops : List (Bool × AddArgs)) : Store :=
  ops.foldl applyAdd initStore

/-- A sequence of add_file_entry calls that all allocate successfully. -/
def runAddsOk (args : List AddArgs) : Store :=
  runAdds (args.map fun a => (true, a))

/-- S_ISDIR of sys/stat.h: (m & 0170000) == 0040000, with
0170000 = 61440 and 0040000 = 16384 in decimal. -/
def S_ISDIR (m : Nat) : Bool := m &&& 61440 == 16384

/-- The escaping loop of json_escape (lines 60-98), one C loop iteration per
list step.  ds is dst_size, di is dst_idx.  The loop runs while
i < src_len and dst_idx < dst_size - 2; each escape case additionally
checks dst_idx < dst_size - 3 before writing its two bytes.  The default
case keeps src[i] only when src[i] >= 32; src has type const char *, and on
the target (gcc, x86-64 Linux) char is signed, so byte values 128..255 read
as negative numbers and fail that comparison: they are dropped exactly like
the small control bytes.  Byte values: 34 is the double quote, 92 the
backslash, 10 newline, 13 carriage return, 9 tab, 110 n, 114 r, 116 t. -/
def json_escape_go : List Nat → Nat → Nat → List Nat
  | [], _, _ => []
  | c :: rest, ds, di =>
    if di < ds - 2 then
      if c = 34 then
        (if di < ds - 3 then 92 :: 34 :: json_escape_go rest ds (di + 2)
         else json_escape_go rest ds di)
      else if c = 92 then
        (if di < ds - 3 then 92 :: 92 :: json_escape_go rest ds (di + 2)
         else json_escape_go rest ds di)
      else if c = 10 then
        (if di < ds - 3 then 92 :: 110 :: json_escape_go rest ds (di + 2)
         else json_escape_go rest ds di)
      else if c = 13 then
        (if di < ds - 3 then 92 :: 114 :: json_escape_go rest ds (di + 2)
         else json_escape_go rest ds di)
      else if c = 9 then
        (if di < ds - 3 then 92 :: 116 :: json_escape_go rest ds (di + 2)
         else json_escape_go rest ds di)
      else if 32 ≤ c ∧ c < 128 then c :: json_escape_go rest ds (di + 1)
      else json_escape_go rest ds di
    else []

/-- json_escape (lines 56-100): run the loop from dst_idx = 0; the result is
the written prefix of dst, terminated at the final dst_idx. -/
def json_escape (src : List Nat) (dst_size : Nat) : List Nat :=
  json_escape_go src dst_size 0

/-- Per-byte escaping map: what json_escape does to each byte when the
destination buffer is large enough. -/
def escByte (c : Nat) : List Nat :=
  if c = 34 then [92, 34]
  else if c = 92 then [92, 92]
  else if c = 10 then [92, 110]
  else if c = 13 then [92, 114]
  else if c = 9 then [92, 116]
  else if 32 ≤ c ∧ c < 128 then [c] else []

/-- Two-decimal-digit zero-padded rendering (strftime field). -/
def pad2 (n : Nat) : List Nat := [48 + n / 10 % 10, 48 + n % 10]

/-- Four-decimal-digit zero-padded rendering (strftime year field for the
years reachable from 32/64-bit timestamps handled here). -/
def pad4 (n : Nat) : List Nat :=
  [48 + n / 1000 % 10, 48 + n / 100 % 10, 48 + n / 10 % 10, 48 + n % 10]

/-- Civil date (year, month, day) from a count of days since 1970-01-01,
the standard era-based gmtime computation, for nonnegative day counts. -/
def civilFromDays (z : Nat) : Nat × Nat × Nat :=
  let days := z + 719468
  let era := days / 146097
  let doe := days % 146097
  let yoe := (doe - doe / 1460 + doe / 36524 - doe / 146096) / 365
  let y := yoe + era * 400
  let doy := doe - (365 * yoe + yoe / 4 - yoe / 100)
  let mp := (5 * doy + 2) / 153
  let d := doy - (153 * mp + 2) / 5 + 1
  let m := if mp < 10 then mp + 3 else mp - 9
  (if m ≤ 2 then y + 1 else y, m, d)

/-- timestamp_to_iso (lines 49-53): gmtime plus strftime with format
%Y-%m-%dT%H:%M:%SZ.  Byte 45 is the hyphen, 84 the letter T, 58 the colon,
90 the letter Z.  Modelled for timestamps representable as nonnegative
time_t (the cast at line 50 is the identity there). -/
def timestamp_to_iso (t : Nat) : List Nat :=
  let days := t / 86400
  let secs := t % 86400
  let c := civilFromDays days
  pad4 c.1 ++ [45] ++ pad2 c.2.1 ++ [45] ++ pad2 c.2.2 ++ [84] ++
    pad2 (secs / 3600) ++ [58] ++ pad2 (secs % 3600 / 60) ++ [58] ++
    pad2 (secs % 60) ++ [90]

/-- The per-record field values either serializer emits, with the format
framing (braces, quotes, commas, key names) stripped away. -/
structure Row where
  path : List Nat
  name : List Nat
  inode : Nat
  size : Nat
  mtime : List Nat
  mode : Nat
  is_dir : Bool
deriving DecidableEq

/-- The field values of one object of the JSON files array
(output_json, lines 115-138): path and name pass through json_escape into
stack buffers of 8192 and 512 bytes, mtime through timestamp_to_iso, and
is_dir is S_ISDIR of the stored mode. -/
def jsonRow (e : file_entry) : Row :=
  ⟨json_escape e.path 8192, json_escape e.name 512, e.inode, e.size,
    timestamp_to_iso e.mtime, e.mode, S_ISDIR e.mode⟩

/-- The field values of one CSV data row (output_csv, lines 148-158):
path and name are printed raw (quoted but not escaped), mtime through
timestamp_to_iso, is_dir as for JSON. -/
def csvRow (e : file_entry) : Row :=
  ⟨e.path, e.name, e.inode, e.size, timestamp_to_iso e.mtime, e.mode,
    S_ISDIR e.mode⟩

/-- The structured output document: the metadata total_files value and the
files array (output_json, lines 103-142).  The scan_time field is the wall
clock at serialization time and carries no record data, so it is not
modelled.  The store list is walked from its head. -/
structure JsonDoc where
  total_files : Nat
  files : List Row
deriving DecidableEq

/-- output_json (lines 103-142) as the document it prints on stdout. -/
def output_json (s : Store) : JsonDoc :=
  ⟨s.file_count, s.file_list.map jsonRow⟩

/-- output_csv (lines 145-159) as the list of data rows it prints after the
header row; the store list is walked from its head, in the same order as
output_json. -/
def output_csv (s : Store) : List Row :=
  s.file_list.map csvRow

/-- get_le64 (lines 162-168): assemble eight bytes little-endian.  Reads
p[0] through p[7]; out-of-range reads would be undefined in C and are given
the junk value 0 here (no claim depends on them). -/
def get_le64 (d : List Nat) (off : Nat) : Nat :=
  d.getD off 0 + d.getD (off + 1) 0 * 2 ^ 8 + d.getD (off + 2) 0 * 2 ^ 16 +
    d.getD (off + 3) 0 * 2 ^ 24 + d.getD (off + 4) 0 * 2 ^ 32 +
    d.getD (off + 5) 0 * 2 ^ 40 + d.getD (off + 6) 0 * 2 ^ 48 +
    d.getD (off + 7) 0 * 2 ^ 56

/-- get_le32 (lines 170-174): assemble four bytes little-endian. -/
def get_le32 (d : List Nat) (off : Nat) : Nat :=
  d.getD off 0 + d.getD (off + 1) 0 * 2 ^ 8 + d.getD (off + 2) 0 * 2 ^ 16 +
    d.getD (off + 3) 0 * 2 ^ 24

/-- sizeof(struct simple_inode_item) (lines 177-195, packed): five 8-byte
fields (0..39), four 4-byte fields (40..55), rdev flags sequence (56..79),
reserved[4] (80..111), then atime ctime mtime otime of 12 bytes each
(112..159).  Total 160.  Field offsets used below: size at 16, mode at 52,
mtime.sec at 136. -/
def sizeof_simple_inode_item : Nat := 160

/-- strrchr(path, 47) followed by +1: the final path component after the
last slash (byte 47), or the whole path when it has no slash. -/
def after_last_slash (p : List Nat) : List Nat :=
  (p.reverse.takeWhile fun c => c ≠ 47).reverse

/-- process_inode_item (lines 198-215): reject any item shorter than the
fixed layout before reading any field; otherwise read size (offset 16),
mtime.sec (offset 136) and mode (offset 52) through the little-endian
extractors and add a record (allocation assumed to succeed). -/
def process_inode_item (objectid : Nat) (item_data : List Nat)
    (item_len : Nat) (path : List Nat) (s : Store) : Store :=
  if item_len < sizeof_simple_inode_item then s
  else
    add_file_entry true path (after_last_slash path) objectid
      (get_le64 item_data 16) (get_le64 item_data 136) (get_le32 item_data 52) s

/-- The fields of struct stat that the crawler uses after lstat. -/
structure StatRec where
  st_ino : Nat
  st_size : Nat
  st_mtime : Nat
  st_mode : Nat
deriving DecidableEq

/-- One directory entry of the modelled filesystem tree, as the crawler
observes it: d_name is what readdir yields, lstatResult is the outcome of
lstat on the joined path (none models lstat failure, in which case the
crawler skips the entry entirely, lines 269-282), openFail models opendir
failing on this entry when the crawler recurses into it (line 256 of the
recursive call), and children is the directory content that readdir would
deliver when opendir succeeds.  For entries whose mode is not a directory
mode, openFail and children are never consulted. -/
inductive FsEnt where
  | mk (d_name : List Nat) (lstatResult : Option StatRec) (openFail : Bool)
      (children : List FsEnt)

/-- snprintf(full_path, 4096, the format %s/%s, path, name) at line 267:
join with a slash (byte 47) and truncate to the 4095 bytes that fit. -/
def joinPath (p name : List Nat) : List Nat :=
  (p ++ [47] ++ name).take 4095

/-- Names of the two pseudo-entries skipped at lines 263-265: the single
dot and the double dot (byte 46). -/
def dotName : List Nat := [46]

/-- The double-dot pseudo-entry name. -/
def dotdotName : List Nat := [46, 46]

mutual

/-- The body of the readdir loop of crawl_filesystem (lines 262-283) for a
single directory entry: skip the dot and double-dot names; skip the entry
when lstat fails; otherwise add a record (allocation assumed to succeed)
and, exactly when S_ISDIR holds of the lstat mode, recurse into the entry.
The return value of the recursive crawl_filesystem call is discarded at
line 280, so an opendir failure below (openFail) leaves only the record of
the entry itself. -/
def crawlEnt : List Nat → FsEnt → Store → Store
  | p, FsEnt.mk name statr openFail children, s =>
    if name = dotName ∨ name = dotdotName then s
    else
      match statr with
      | none => s
      | some st =>
        let fp := joinPath p name
        let s1 := add_file_entry true fp name st.st_ino st.st_size st.st_mtime st.st_mode s
        if S_ISDIR st.st_mode then
          (if openFail then s1 else crawlList fp children s1)
        else s1

/-- The readdir loop of crawl_filesystem over a whole directory listing,
threading the global store through the entries in order. -/
def crawlList : List Nat → List FsEnt → Store → Store
  | _, [], s => s
  | p, e :: rest, s => crawlList p rest (crawlEnt p e s)

end

/-- crawl_filesystem (lines 249-287): opendir on the argument path; on
failure return -1 with the store untouched (lines 255-258); otherwise run
the readdir loop and return 0.  root is the directory listing when opendir
succeeds, none when it fails.  The progress messages on stderr (lines
260, 273-276) carry no record data and are not modelled. -/
def crawl_filesystem (p : List Nat) (root : Option (List FsEnt)) (s : Store) :
    Int × Store :=
  match root with
  | none => (-1, s)
  | some es => (0, crawlList p es s)

/-- The three stderr diagnostics of search_btrfs_metadata: the open-failure
message (line 229), the ioctl-failure message (line 236), and the fallback
warning (line 241). -/
inductive Msg where
  | errCannotOpen
  | errNotBtrfs
  | warnFallback
deriving DecidableEq

/-- Whether the printed diagnostic text begins with the word Error
(lines 229 and 236 do, the warning at line 241 does not). -/
def isErrorMsg : Msg → Bool
  | .errCannotOpen => true
  | .errNotBtrfs => true
  | .warnFallback => false

/-- search_btrfs_metadata (lines 226-246).  openOk is the outcome of
open(mount_path, O_RDONLY), ioctlOk the outcome of the BTRFS_IOC_FS_INFO
ioctl.  Either failure prints an Error diagnostic on stderr and returns -1
without touching the store; on success the function prints the fallback
warning and itself runs crawl_filesystem, returning its result code. -/
def search_btrfs_metadata (openOk ioctlOk : Bool) (p : List Nat)
    (root : Option (List FsEnt)) (s : Store) : Int × List Msg × Store :=
  if openOk = false then (-1, [.errCannotOpen], s)
  else if ioctlOk = false then (-1, [.errNotBtrfs], s)
  else
    let r := crawl_filesystem p root s
    (r.1, [.warnFallback], r.2)

/-- The gather phase of main (lines 343-349): try search_btrfs_metadata;
on a nonzero result fall back to crawl_filesystem; if that also fails the
run aborts with exit code 1 (modelled as none).  The store starts from the
initial globals; the accumulated stderr diagnostics are returned. -/
def gatherPhase (openOk ioctlOk : Bool) (p : List Nat)
    (root : Option (List FsEnt)) : Option Store × List Msg :=
  let r := search_btrfs_metadata openOk ioctlOk p root initStore
  if r.1 ≠ 0 then
    let r2 := crawl_filesystem p root r.2.2
    if r2.1 ≠ 0 then (none, r.2.1) else (some r2.2, r.2.1)
  else (some r.2.2, r.2.1)

/-- One command-line option as getopt(argc, argv, the string f:h) delivers
it: a -f with its value, a -h, or anything getopt rejects (unknown flag or
-f without a value). -/
inductive OptTok where
  | fmt (v : List Nat)
  | help
  | bad

/-- The format name json in bytes. -/
def jsonStr : List Nat := [106, 115, 111, 110]

/-- The format name csv in bytes. -/
def csvStr : List Nat := [99, 115, 118]

/-- Everything main prints on standard output: the usage text
(print_usage, lines 290-298, via printf) or one serialized document. -/
inductive OutDoc where
  | usage
  | jsonOut (d : JsonDoc)
  | csvOut (rows : List Row)
deriving DecidableEq

/-- The filesystem state behind the positional path argument: the stat
outcome (line 333), the directory listing when the path can be opened
(shared by the probe fallback and the crawler, which walk the same tree),
and the two probe outcomes of search_btrfs_metadata. -/
structure PathTarget where
  statResult : Option StatRec
  root : Option (List FsEnt)
  probeOpenOk : Bool
  probeIoctlOk : Bool
  pathStr : List Nat

/-- One invocation: the option tokens in command-line order and the
positional path argument (none models a missing path, line 323). -/
structure Invocation where
  opts : List OptTok
  pathArg : Option PathTarget

/-- The getopt loop of main (lines 305-321), threading the current format
value: an invalid -f value returns 1 at once with nothing on stdout
(lines 309-312); -h prints usage on stdout and returns 0 (lines 314-316);
a rejected option prints usage on stdout and returns 1 (lines 317-319). -/
def getoptLoop : List Nat → List OptTok → Except (Nat × List OutDoc) (List Nat)
  | fmtv, [] => .ok fmtv
  | _, .fmt v :: rest =>
    if v = jsonStr ∨ v = csvStr then getoptLoop v rest
    else .error (1, [])
  | _, .help :: _ => .error (0, [.usage])
  | _, .bad :: _ => .error (1, [.usage])

/-- main (lines 300-368): parse options with the default format json;
report a missing path with usage on stdout and exit 1 (lines 323-327);
exit 1 when stat fails on the path (lines 333-336) or when the path is not
a directory (lines 338-341), printing nothing on stdout; gather records
(probe plus fallback crawl) and exit 1 when that produces no listing
(lines 344-349); otherwise print the document of the selected format on
stdout and exit 0. -/
def mainRun (inv : Invocation) : Nat × List OutDoc :=
  match getoptLoop jsonStr inv.opts with
  | .error r => r
  | .ok fmtv =>
    match inv.pathArg with
    | none => (1, [.usage])
    | some pt =>
      match pt.statResult with
      | none => (1, [])
      | some st =>
        if S_ISDIR st.st_mode = false then (1, [])
        else
          match gatherPhase pt.probeOpenOk pt.probeIoctlOk pt.pathStr pt.root with
          | (none, _) => (1, [])
          | (some s, _) =>
            (0, [if fmtv = csvStr then .csvOut (output_csv s) else .jsonOut (output_json s)])

mutual

/-- Wellformedness of a tree entry for the full-visit count: every
non-pseudo entry can be lstat-ed, and every directory-mode entry can be
opened and has a wellformed listing.  The dot and double-dot pseudo-entries
are unconstrained because the crawler never looks at them. -/
def entGood : FsEnt → Bool
  | .mk name statr openFail children =>
    if name = dotName ∨ name = dotdotName then true
    else
      match statr with
      | none => false
      | some st =>
        if S_ISDIR st.st_mode then !openFail && listGood children else true

/-- Wellformedness of a whole directory listing. -/
def listGood : List FsEnt → Bool
  | [] => true
  | e :: rest => entGood e && listGood rest

end

mutual

/-- Number of non-directory objects an entry contributes: pseudo-entries
and lstat-failing entries contribute none; a directory-mode entry
contributes those of its listing; any other entry contributes itself. -/
def entNonDirCount : FsEnt → Nat
  | .mk name statr _ children =>
    if name = dotName ∨ name = dotdotName then 0
    else
      match statr with
      | none => 0
      | some st => if S_ISDIR st.st_mode then listNonDirCount children else 1

/-- Number of non-directory objects in a directory listing. -/
def listNonDirCount : List FsEnt → Nat
  | [] => 0
  | e :: rest => entNonDirCount e + listNonDirCount rest

end

mutual

/-- Number of directory objects an entry contributes: a directory-mode
entry contributes itself plus those of its listing. -/
def entDirCount : FsEnt → Nat
  | .mk name statr _ children =>
    if name = dotName ∨ name = dotdotName then 0
    else
      match statr with
      | none => 0
      | some st => if S_ISDIR st.st_mode then 1 + listDirCount children else 0

/-- Number of directory objects in a directory listing. -/
def listDirCount : List FsEnt → Nat
  | [] => 0
  | e :: rest => entDirCount e + listDirCount rest

end

/-! ### Helper lemmas about the record store -/

theorem applyAdd_file_list_ok (s : Store) (a : AddArgs) :
    (applyAdd s (true, a)).file_list = mkEntry a :: s.file_list := rfl

theorem foldl_adds_ok (args : List AddArgs) :
    ∀ s : Store,
      ((args.map fun a => (true, a)).foldl applyAdd s).file_list =
        (args.map mkEntry).reverse ++ s.file_list := by
  induction args with
  | nil => intro s; simp
  | cons a rest ih =>
    intro s
    simp only [List.map_cons, List.foldl_cons, List.reverse_cons]
    rw [ih, applyAdd_file_list_ok]
    simp

theorem runAddsOk_file_list (args : List AddArgs) :
    (runAddsOk args).file_list = (args.map mkEntry).reverse := by
  have h := foldl_adds_ok args initStore
  simpa [runAddsOk, runAdds, initStore] using h

theorem foldl_adds_invariant (ops : List (Bool × AddArgs)) :
    ∀ s : Store, s.file_count = s.file_list.length →
      (ops.foldl applyAdd s).file_count = (ops.foldl applyAdd s).file_list.length := by
  induction ops with
  | nil => intro s h; simpa using h
  | cons op rest ih =>
    intro s h
    simp only [List.foldl_cons]
    apply ih
    rcases op with ⟨ok, a⟩
    cases ok <;> simp [applyAdd, add_file_entry, h]

/-- Default entry used to state positional access claims without bounds
proofs embedded in the statement. -/
def dEntry : file_entry := ⟨[], [], 0, 0, 0, 0⟩

/-- Default add arguments, same role as dEntry. -/
def dArgs : AddArgs := ⟨[], [], 0, 0, 0, 0⟩

/-- Default row, same role as dEntry: what either serializer renders from
dEntry. -/
def dRow : Row := ⟨[], [], 0, 0, timestamp_to_iso 0, 0, false⟩

theorem getD_reverse {α : Type} (l : List α) (k : Nat) (d : α)
    (h : k < l.length) :
    l.reverse.getD k d = l.getD (l.length - 1 - k) d := by
  rw [List.getD_eq_getElem?_getD, List.getD_eq_getElem?_getD,
    List.getElem?_reverse h]

theorem getD_map {α β : Type} (f : α → β) (l : List α) (k : Nat) (d : α) :
    (l.map f).getD k (f d) = f (l.getD k d) := by
  rw [List.getD_eq_getElem?_getD, List.getD_eq_getElem?_getD,
    List.getElem?_map, Option.getD_map]

/-! ### Claims about the record store -/

/-- C1: the store prepends each new entry, so after n successful adds the
k-th stored record (0-based, and therefore the k-th record emitted by both
serializers, which walk the store from its head) is the record built by the
(n-1-k)-th add, i.e. the (n-k)-th-from-last in discovery order (1-based:
the k-th emitted record is the (n-k+1)-th added). -/
theorem C1_store_iterates_in_reverse_discovery_order
    (args : List AddArgs) (k : Nat) (h : k < args.length) :
    (runAddsOk args).file_list.getD k dEntry =
      mkEntry (args.getD (args.length - 1 - k) dArgs) ∧
    ((output_json (runAddsOk args)).files.getD k dRow =
      jsonRow (mkEntry (args.getD (args.length - 1 - k) dArgs))) ∧
    ((output_csv (runAddsOk args)).getD k dRow =
      csvRow (mkEntry (args.getD (args.length - 1 - k) dArgs))) := by
  have hlist : (runAddsOk args).file_list.getD k dEntry =
      mkEntry (args.getD (args.length - 1 - k) dArgs) := by
    rw [runAddsOk_file_list]
    rw [getD_reverse _ _ _ (by simpa using h)]
    have : (args.map mkEntry).getD (args.length - 1 - k) (mkEntry dArgs) =
        mkEntry (args.getD (args.length - 1 - k) dArgs) := getD_map mkEntry args _ dArgs
    simp only [List.length_map]
    rw [show mkEntry dArgs = dEntry from rfl] at this
    exact this
  refine ⟨hlist, ?_, ?_⟩
  · have := getD_map jsonRow (runAddsOk args).file_list k dEntry
    rw [show jsonRow dEntry = dRow by rfl] at this
    simp only [output_json]
    rw [this, hlist]
  · have := getD_map csvRow (runAddsOk args).file_list k dEntry
    rw [show csvRow dEntry = dRow by rfl] at this
    simp only [output_csv]
    rw [this, hlist]

/-- C1 witness: three adds; the record emitted first is the one added
last. -/
theorem C1_witness :
    (0 < 3 ∧
      (runAddsOk [⟨[97], [97], 1, 10, 0, 0⟩, ⟨[98], [98], 2, 20, 0, 0⟩,
        ⟨[99], [99], 3, 30, 0, 0⟩]).file_list.getD 0 dEntry =
        mkEntry ⟨[99], [99], 3, 30, 0, 0⟩) := by
  constructor
  · decide
  · have h := C1_store_iterates_in_reverse_discovery_order
      [⟨[97], [97], 1, 10, 0, 0⟩, ⟨[98], [98], 2, 20, 0, 0⟩,
        ⟨[99], [99], 3, 30, 0, 0⟩] 0 (by decide)
    simpa using h.1

/-- C5: after every sequence of add_file_entry calls (whatever the malloc
outcomes), the global counter equals the length of the record list, so the
structured output reports a total_files value equal to the number of
objects in its files array. -/
theorem C5_total_files_matches_array_length (ops : List (Bool × AddArgs)) :
    (output_json (runAdds ops)).total_files =
      (output_json (runAdds ops)).files.length := by
  have h := foldl_adds_invariant ops initStore (by simp [initStore])
  simp only [output_json, List.length_map]
  exact h

/-- C10: when malloc fails, add_file_entry returns with the record list and
the counter unchanged, so a whole run behaves as if the failed adds had
never happened: running any operation sequence equals running only its
successful operations. -/
theorem C10_failed_alloc_is_silent_noop :
    (∀ (path name : List Nat) (inode size mtime mode : Nat) (s : Store),
      add_file_entry false path name inode size mtime mode s = s) ∧
    (∀ ops : List (Bool × AddArgs),
      runAdds ops = runAddsOk ((ops.filter fun op => op.1).map fun op => op.2)) := by
  constructor
  · intro path name inode size mtime mode s
    simp [add_file_entry]
  · intro ops
    have key : ∀ (l : List (Bool × AddArgs)) (s : Store),
        l.foldl applyAdd s =
          ((l.filter fun op => op.1).map fun op => ((true : Bool), op.2)).foldl
            applyAdd s := by
      intro l
      induction l with
      | nil => intro s; rfl
      | cons op rest ih =>
        intro s
        rcases op with ⟨ok, a⟩
        cases ok
        · simpa [applyAdd, add_file_entry] using ih s
        · simp [ih]
    simp only [runAdds, runAddsOk, List.map_map]
    rw [key ops initStore]
    congr 1

/-! ### Helper lemmas about the escaper -/

theorem json_escape_go_flatMap (src : List Nat) :
    ∀ ds di : Nat, di + 2 * src.length + 2 ≤ ds →
      json_escape_go src ds di = src.flatMap escByte := by
  induction src with
  | nil => intro ds di _; simp [json_escape_go]
  | cons c rest ih =>
    intro ds di h
    simp only [List.length_cons] at h
    have hA : di < ds - 2 := by omega
    have hB : di < ds - 3 := by omega
    have hrec2 := ih ds (di + 2) (by omega)
    have hrec1 := ih ds (di + 1) (by omega)
    have hrec0 := ih ds di (by omega)
    simp only [json_escape_go, List.flatMap_cons, escByte, if_pos hA]
    split_ifs <;> simp_all

theorem json_escape_go_id (src : List Nat) :
    ∀ ds di : Nat,
      (∀ c ∈ src, 32 ≤ c ∧ c < 128 ∧ c ≠ 34 ∧ c ≠ 92) →
      di + src.length + 2 ≤ ds →
      json_escape_go src ds di = src := by
  induction src with
  | nil => intro ds di _ _; simp [json_escape_go]
  | cons c rest ih =>
    intro ds di hclean h
    simp only [List.length_cons] at h
    obtain ⟨hc32, hc128, hc34, hc92⟩ := hclean c (List.mem_cons_self c rest)
    have hA : di < ds - 2 := by omega
    have hc10 : c ≠ 10 := by omega
    have hc13 : c ≠ 13 := by omega
    have hc9 : c ≠ 9 := by omega
    have hrec := ih ds (di + 1)
      (fun x hx => hclean x (List.mem_cons_of_mem c hx)) (by omega)
    simp only [json_escape_go, if_pos hA, if_neg hc34, if_neg hc92,
      if_neg hc10, if_neg hc13, if_neg hc9, if_pos (And.intro hc32 hc128),
      hrec]

/-! ### Claims about the escaper and the two serializers -/

/-- C2 counterexample: the byte 200 with an ample output buffer.  The claim
says every byte that is not one of the five escaped characters and not
below 32 passes through unchanged, so the output should be the byte 200
itself; the code drops it (the signed char comparison at line 93 sees a
negative value), leaving the empty string. -/
theorem C2_counterexample : json_escape [200] 100 ≠ [200] := by decide

/-- C2 amended: for every input and a sufficiently large output buffer,
json_escape maps the double quote to backslash-quote, backslash to double
backslash, newline to backslash-n, carriage return to backslash-r and tab
to backslash-t, drops every other byte below 32, passes bytes 32..127
through unchanged, and also drops every byte of value 128 and above
(src has type const char *, and char is signed on the target, so those
bytes compare negative against 32 at line 93). -/
theorem C2_escaper_per_byte_map (src : List Nat) (dst_size : Nat)
    (h : 2 * src.length + 2 ≤ dst_size) :
    json_escape src dst_size = src.flatMap escByte :=
  json_escape_go_flatMap src dst_size 0 (by omega)

/-- C2 witness: one byte of each class through a 100-byte buffer. -/
theorem C2_witness :
    2 * ([34, 92, 10, 13, 9, 65, 7, 127] : List Nat).length + 2 ≤ 100 ∧
    json_escape [34, 92, 10, 13, 9, 65, 7, 127] 100 =
      [92, 34, 92, 92, 92, 110, 92, 114, 92, 116, 65, 127] :=
  ⟨by decide,
    (C2_escaper_per_byte_map [34, 92, 10, 13, 9, 65, 7, 127] 100
      (by decide)).trans (by decide)⟩

/-- The framing-independent numeric and derived fields of a row: inode,
size, rendered mtime, mode, is_dir. -/
def rowDerivedPart (r : Row) : Nat × Nat × List Nat × Nat × Bool :=
  (r.inode, r.size, r.mtime, r.mode, r.is_dir)

/-- A string field whose bytes survive json_escape unchanged, together
with the length bounds the store guarantees (strncpy truncation). -/
def cleanField (l : List Nat) (maxLen : Nat) : Prop :=
  l.length ≤ maxLen ∧ ∀ c ∈ l, 32 ≤ c ∧ c < 128 ∧ c ≠ 34 ∧ c ≠ 92

instance (l : List Nat) (maxLen : Nat) : Decidable (cleanField l maxLen) := by
  unfold cleanField; infer_instance

/-- C3 counterexample: a store holding one record whose path and name are a
single newline byte.  The claim says both emitters report identical
per-record field values with the same escaping applied; the JSON emitter
escapes the newline to backslash-n while the CSV emitter prints the raw
bytes, so the two field sets differ. -/
theorem C3_counterexample :
    (output_json (runAddsOk [⟨[10], [10], 1, 2, 3, 4⟩])).files ≠
      output_csv (runAddsOk [⟨[10], [10], 1, 2, 3, 4⟩]) := by decide

/-- C3 amended: for every gathered record set the two emitters produce the
same number of records, in the same order, and identical inode, size,
rendered-mtime, mode and is_dir values derived by the same rules; the path
and name fields also agree whenever their bytes are untouched by
json_escape (all in 32..127 and none a quote or backslash, with the lengths
the store guarantees), but in general the JSON emitter escapes those two
fields while the CSV emitter prints them raw. -/
theorem C3_emitters_agree_modulo_escaping (s : Store) :
    (output_json s).files.length = (output_csv s).length ∧
    (output_json s).files.map rowDerivedPart =
      (output_csv s).map rowDerivedPart ∧
    ((∀ e ∈ s.file_list, cleanField e.path 4095 ∧ cleanField e.name 255) →
      (output_json s).files = output_csv s) := by
  refine ⟨by simp [output_json, output_csv], ?_, ?_⟩
  · simp only [output_json, output_csv, List.map_map]
    rfl
  · intro hclean
    simp only [output_json, output_csv]
    apply List.map_congr_left
    intro e he
    obtain ⟨⟨hpl, hpc⟩, ⟨hnl, hnc⟩⟩ := hclean e he
    simp only [jsonRow, csvRow, json_escape]
    rw [json_escape_go_id e.path 8192 0 hpc (by omega),
      json_escape_go_id e.name 512 0 hnc (by omega)]

/-- C3 witness: a concrete clean store on which the emitters agree
exactly. -/
theorem C3_witness :
    (output_json (runAddsOk [⟨[97, 98], [98], 1, 2, 3, 4⟩])).files =
      output_csv (runAddsOk [⟨[97, 98], [98], 1, 2, 3, 4⟩]) :=
  (C3_emitters_agree_modulo_escaping
    (runAddsOk [⟨[97, 98], [98], 1, 2, 3, 4⟩])).2.2 (by decide)

/-! ### Helper lemmas about the crawler -/

theorem crawl_gained (p : List Nat) (es : List FsEnt) (s : Store) :
    ∃ l, (crawlList p es s).file_list = l ++ s.file_list ∧
      (crawlList p es s).file_count = s.file_count + l.length := by
  refine crawlList.induct
    (fun p e s => ∃ l, (crawlEnt p e s).file_list = l ++ s.file_list ∧
      (crawlEnt p e s).file_count = s.file_count + l.length)
    (fun p es s => ∃ l, (crawlList p es s).file_list = l ++ s.file_list ∧
      (crawlList p es s).file_count = s.file_count + l.length)
    ?_ ?_ ?_ ?_ ?_ ?_ ?_ p es s
  · intro p name statr openFail children s hps
    exact ⟨[], by simp [crawlEnt, hps]⟩
  · intro p name openFail children s hps
    exact ⟨[], by simp [crawlEnt, hps]⟩
  · intro p name children s hps st hdir
    refine ⟨[⟨(joinPath p name).take 4095, name.take 255, st.st_ino,
      st.st_size, st.st_mtime, st.st_mode⟩], ?_⟩
    simp [crawlEnt, hps, hdir, add_file_entry]
  · intro p name openFail children s hps st fp s1 hdir hopen ih
    have hof : openFail = false := by simpa using hopen
    obtain ⟨l, h1, h2⟩ := ih
    have hE : crawlEnt p (FsEnt.mk name (some st) openFail children) s =
        crawlList fp children s1 := by
      simp [crawlEnt, hps, hdir, hof]
    have hs1list : s1.file_list = ⟨fp.take 4095, name.take 255, st.st_ino,
        st.st_size, st.st_mtime, st.st_mode⟩ :: s.file_list := rfl
    have hs1count : s1.file_count = s.file_count + 1 := rfl
    refine ⟨l ++ [⟨fp.take 4095, name.take 255, st.st_ino, st.st_size,
      st.st_mtime, st.st_mode⟩], ?_, ?_⟩
    · rw [hE, h1, hs1list]
      simp
    · rw [hE, h2, hs1count]
      simp only [List.length_append, List.length_cons, List.length_nil]
      omega
  · intro p name openFail children s hps st hdir
    refine ⟨[⟨(joinPath p name).take 4095, name.take 255, st.st_ino,
      st.st_size, st.st_mtime, st.st_mode⟩], ?_⟩
    simp [crawlEnt, hps, hdir, add_file_entry]
  · intro x s
    exact ⟨[], by simp [crawlList]⟩
  · intro p e rest s ih1 ih2
    obtain ⟨l1, h1l, h1c⟩ := ih1
    obtain ⟨l2, h2l, h2c⟩ := ih2
    refine ⟨l2 ++ l1, ?_, ?_⟩
    · simp only [crawlList, h2l, h1l, List.append_assoc]
    · simp only [crawlList, h2c, h1c, List.length_append]
      omega

theorem crawlList_append (p : List Nat) (xs ys : List FsEnt) (s : Store) :
    crawlList p (xs ++ ys) s = crawlList p ys (crawlList p xs s) := by
  induction xs generalizing s with
  | nil => simp [crawlList]
  | cons e rest ih =>
    simp only [List.cons_append, crawlList]
    exact ih _

theorem crawl_count_key (p : List Nat) (es : List FsEnt) (s : Store)
    (hgood : listGood es = true) :
    (crawlList p es s).file_list.length =
      s.file_list.length + listNonDirCount es + listDirCount es ∧
    (crawlList p es s).file_count =
      s.file_count + listNonDirCount es + listDirCount es := by
  refine crawlList.induct
    (fun p e s => entGood e = true →
      (crawlEnt p e s).file_list.length =
        s.file_list.length + entNonDirCount e + entDirCount e ∧
      (crawlEnt p e s).file_count =
        s.file_count + entNonDirCount e + entDirCount e)
    (fun p es s => listGood es = true →
      (crawlList p es s).file_list.length =
        s.file_list.length + listNonDirCount es + listDirCount es ∧
      (crawlList p es s).file_count =
        s.file_count + listNonDirCount es + listDirCount es)
    ?_ ?_ ?_ ?_ ?_ ?_ ?_ p es s hgood
  · intro p name statr openFail children s hps _
    simp [crawlEnt, entNonDirCount, entDirCount, hps]
  · intro p name openFail children s hps hg
    exfalso
    simp [entGood, hps] at hg
  · intro p name children s hps st hdir hg
    exfalso
    simp [entGood, hps, hdir] at hg
  · intro p name openFail children s hps st fp s1 hdir hopen ih hg
    have hof : openFail = false := by simpa using hopen
    have hgc : listGood children = true := by
      simpa [entGood, hps, hdir, hof] using hg
    obtain ⟨h1, h2⟩ := ih hgc
    have hE : crawlEnt p (FsEnt.mk name (some st) openFail children) s =
        crawlList fp children s1 := by
      simp [crawlEnt, hps, hdir, hof]
    have hs1len : s1.file_list.length = s.file_list.length + 1 := rfl
    have hs1count : s1.file_count = s.file_count + 1 := rfl
    rw [hE]
    constructor
    · rw [h1, hs1len]
      simp only [entNonDirCount, entDirCount, hdir, if_pos, if_neg hps]
      omega
    · rw [h2, hs1count]
      simp only [entNonDirCount, entDirCount, hdir, if_pos, if_neg hps]
      omega
  · intro p name openFail children s hps st hdir _
    simp only [crawlEnt, if_neg hps, hdir]
    simp [add_file_entry, entNonDirCount, entDirCount, hps,
      Bool.not_eq_true _ ▸ hdir]
  · intro x s _
    simp [crawlList, listNonDirCount, listDirCount]
  · intro p e rest s ih1 ih2 hg
    rw [listGood] at hg
    rw [Bool.and_eq_true] at hg
    obtain ⟨h1, h2⟩ := ih1 hg.1
    obtain ⟨h3, h4⟩ := ih2 hg.2
    simp only [crawlList, listNonDirCount, listDirCount]
    rw [h3, h4, h1, h2]
    omega

/-! ### Claims about the crawler -/

/-- C4: over a wellformed tree (every non-pseudo entry can be lstat-ed and
every directory-mode entry can be opened, recursively), the crawler run on
the root listing produces exactly one record per object: the total equals
the number of non-directory objects plus the number of directory objects
strictly beneath the root.  The root itself contributes no record (the
walk starts from the root listing), the dot and double-dot pseudo-entries
are skipped, and recursion happens exactly into the entries whose lstat
mode passes S_ISDIR. -/
theorem C4_crawler_emits_one_record_per_object (p : List Nat)
    (es : List FsEnt) (hgood : listGood es = true) :
    (crawlList p es initStore).file_list.length =
      listNonDirCount es + listDirCount es ∧
    (crawlList p es initStore).file_count =
      listNonDirCount es + listDirCount es := by
  have h := crawl_count_key p es initStore hgood
  simpa [initStore] using h

/-- C4 witness: the spec §8 scenario: a 2-byte file a.txt and a directory d
holding an empty file b.txt (plus skipped pseudo-entries), all beneath the
root: three records, one per object. -/
theorem C4_witness :
    listGood
      [FsEnt.mk [46] none false [],
        FsEnt.mk [97, 46, 116, 120, 116] (some ⟨11, 2, 100, 33188⟩) false [],
        FsEnt.mk [100] (some ⟨12, 0, 100, 16877⟩) false
          [FsEnt.mk [46, 46] none false [],
            FsEnt.mk [98, 46, 116, 120, 116] (some ⟨13, 0, 100, 33188⟩)
              false []]] = true ∧
    (crawlList [47, 114]
      [FsEnt.mk [46] none false [],
        FsEnt.mk [97, 46, 116, 120, 116] (some ⟨11, 2, 100, 33188⟩) false [],
        FsEnt.mk [100] (some ⟨12, 0, 100, 16877⟩) false
          [FsEnt.mk [46, 46] none false [],
            FsEnt.mk [98, 46, 116, 120, 116] (some ⟨13, 0, 100, 33188⟩)
              false []]] initStore).file_list.length = 3 := by
  constructor
  · decide
  · have h := C4_crawler_emits_one_record_per_object [47, 114]
      [FsEnt.mk [46] none false [],
        FsEnt.mk [97, 46, 116, 120, 116] (some ⟨11, 2, 100, 33188⟩) false [],
        FsEnt.mk [100] (some ⟨12, 0, 100, 16877⟩) false
          [FsEnt.mk [46, 46] none false [],
            FsEnt.mk [98, 46, 116, 120, 116] (some ⟨13, 0, 100, 33188⟩)
              false []]] (by decide)
    rw [h.1]
    decide

/-- C6: an unopenable subdirectory is a purely local failure: the walk over
a listing holding it equals recording the subdirectory entry itself and
continuing with the remaining siblings from the state accumulated so far
(nothing of its subtree is visited, nothing before it is lost); every
record gathered before the walk is retained as the tail of the final list;
and the top-level crawl still reports success (return code 0), because the
recursive call discards the subordinate return value (line 280). -/
theorem C6_unopenable_subdir_is_local (p : List Nat) (pre post : List FsEnt)
    (name : List Nat) (st : StatRec) (ch : List FsEnt) (s : Store)
    (hname : ¬(name = dotName ∨ name = dotdotName))
    (hdir : S_ISDIR st.st_mode = true) :
    (crawlList p (pre ++ FsEnt.mk name (some st) true ch :: post) s =
      crawlList p post
        (add_file_entry true (joinPath p name) name st.st_ino st.st_size
          st.st_mtime st.st_mode (crawlList p pre s))) ∧
    ((crawlList p (pre ++ FsEnt.mk name (some st) true ch :: post) s).file_list.drop
      ((crawlList p (pre ++ FsEnt.mk name (some st) true ch :: post) s).file_list.length
        - s.file_list.length) = s.file_list) ∧
    (crawl_filesystem p (some (pre ++ FsEnt.mk name (some st) true ch :: post)) s).1
      = 0 := by
  refine ⟨?_, ?_, rfl⟩
  · rw [crawlList_append]
    simp only [crawlList]
    congr 1
    simp [crawlEnt, hname, hdir]
  · obtain ⟨l, hl, _⟩ :=
      crawl_gained p (pre ++ FsEnt.mk name (some st) true ch :: post) s
    rw [hl]
    simp

/-- C6 witness: a root with one regular file, then an unopenable
subdirectory, then another regular file: the walk records all three
entries, keeps the initial store as the list tail, and returns 0. -/
theorem C6_witness :
    (crawlList [47] [FsEnt.mk [97] (some ⟨1, 2, 3, 33188⟩) false [],
        FsEnt.mk [100] (some ⟨4, 0, 5, 16877⟩) true
          [FsEnt.mk [99] (some ⟨9, 9, 9, 33188⟩) false []],
        FsEnt.mk [98] (some ⟨6, 7, 8, 33188⟩) false []] initStore =
      crawlList [47] [FsEnt.mk [98] (some ⟨6, 7, 8, 33188⟩) false []]
        (add_file_entry true (joinPath [47] [100]) [100] 4 0 5 16877
          (crawlList [47] [FsEnt.mk [97] (some ⟨1, 2, 3, 33188⟩) false []]
            initStore))) ∧
    ((crawlList [47] [FsEnt.mk [97] (some ⟨1, 2, 3, 33188⟩) false [],
        FsEnt.mk [100] (some ⟨4, 0, 5, 16877⟩) true
          [FsEnt.mk [99] (some ⟨9, 9, 9, 33188⟩) false []],
        FsEnt.mk [98] (some ⟨6, 7, 8, 33188⟩) false []] initStore).file_list.drop
      ((crawlList [47] [FsEnt.mk [97] (some ⟨1, 2, 3, 33188⟩) false [],
        FsEnt.mk [100] (some ⟨4, 0, 5, 16877⟩) true
          [FsEnt.mk [99] (some ⟨9, 9, 9, 33188⟩) false []],
        FsEnt.mk [98] (some ⟨6, 7, 8, 33188⟩) false []] initStore).file_list.length
        - initStore.file_list.length) = initStore.file_list) ∧
    (crawl_filesystem [47] (some ([FsEnt.mk [97] (some ⟨1, 2, 3, 33188⟩) false []] ++
      FsEnt.mk [100] (some ⟨4, 0, 5, 16877⟩) true
        [FsEnt.mk [99] (some ⟨9, 9, 9, 33188⟩) false []] ::
          [FsEnt.mk [98] (some ⟨6, 7, 8, 33188⟩) false []])) initStore).1 = 0 :=
  C6_unopenable_subdir_is_local [47]
    [FsEnt.mk [97] (some ⟨1, 2, 3, 33188⟩) false []]
    [FsEnt.mk [98] (some ⟨6, 7, 8, 33188⟩) false []]
    [100] ⟨4, 0, 5, 16877⟩
    [FsEnt.mk [99] (some ⟨9, 9, 9, 33188⟩) false []]
    initStore (by decide) (by decide)

/-! ### Helper lemmas about the probe, the gather phase and the decoder -/

theorem gatherPhase_fst (openOk ioctlOk : Bool) (p : List Nat)
    (root : Option (List FsEnt)) :
    (gatherPhase openOk ioctlOk p root).1 =
      (match root with
       | none => none
       | some es => some (crawlList p es initStore)) := by
  cases root <;> cases openOk <;> cases ioctlOk <;>
    simp [gatherPhase, search_btrfs_metadata, crawl_filesystem]

theorem getD_agree_of_take (d1 d2 : List Nat) (n k : Nat)
    (h : d1.take n = d2.take n) (hk : k < n) :
    d1.getD k 0 = d2.getD k 0 := by
  rw [List.getD_eq_getElem?_getD, List.getD_eq_getElem?_getD]
  have h1 : (d1.take n)[k]? = d1[k]? := by
    rw [List.getElem?_take]
    simp [hk]
  have h2 : (d2.take n)[k]? = d2[k]? := by
    rw [List.getElem?_take]
    simp [hk]
  rw [← h1, ← h2, h]

theorem get_le64_agree (d1 d2 : List Nat) (n off : Nat)
    (h : d1.take n = d2.take n) (hoff : off + 8 ≤ n) :
    get_le64 d1 off = get_le64 d2 off := by
  unfold get_le64
  rw [getD_agree_of_take d1 d2 n off h (by omega),
    getD_agree_of_take d1 d2 n (off + 1) h (by omega),
    getD_agree_of_take d1 d2 n (off + 2) h (by omega),
    getD_agree_of_take d1 d2 n (off + 3) h (by omega),
    getD_agree_of_take d1 d2 n (off + 4) h (by omega),
    getD_agree_of_take d1 d2 n (off + 5) h (by omega),
    getD_agree_of_take d1 d2 n (off + 6) h (by omega),
    getD_agree_of_take d1 d2 n (off + 7) h (by omega)]

theorem get_le32_agree (d1 d2 : List Nat) (n off : Nat)
    (h : d1.take n = d2.take n) (hoff : off + 4 ≤ n) :
    get_le32 d1 off = get_le32 d2 off := by
  unfold get_le32
  rw [getD_agree_of_take d1 d2 n off h (by omega),
    getD_agree_of_take d1 d2 n (off + 1) h (by omega),
    getD_agree_of_take d1 d2 n (off + 2) h (by omega),
    getD_agree_of_take d1 d2 n (off + 3) h (by omega)]

/-! ### Claims about the probe and the decoder -/

/-- C7 counterexample: a probe open failure makes the run print a
diagnostic that begins with the word Error on the standard error stream
(line 229), so probe errors are user-visible as errors, contrary to the
claim that they are silent and not user-visible. -/
theorem C7_counterexample :
    (search_btrfs_metadata false true [47] (some []) initStore).2.1 =
      [Msg.errCannotOpen] ∧
    isErrorMsg Msg.errCannotOpen = true := by decide

/-- C7 amended: probe errors (open failure or type-query failure) do
trigger fallback to the generic crawler, which then populates the records
for the run: for every probe outcome the gather phase delivers exactly the
store the crawler produces from the root listing (and fails only when the
root listing itself cannot be opened) — but the probe failures are
reported as Error diagnostics on standard error rather than silently
(even a successful probe falls back, printing a warning, because the
native decode path is unimplemented). -/
theorem C7_probe_errors_fall_back_to_crawler (openOk ioctlOk : Bool)
    (p : List Nat) (root : Option (List FsEnt)) :
    (gatherPhase openOk ioctlOk p root).1 =
      (match root with
       | none => none
       | some es => some (crawlList p es initStore)) :=
  gatherPhase_fst openOk ioctlOk p root

/-- C9: the native inode-item decoder validates the supplied item length
against the 160-byte fixed layout before reading anything: when the length
check passes, the result depends only on the first 160 bytes of the item
buffer (all reads lie below offset 160, hence within any buffer of
item_len bytes), and when item_len is below 160 the function returns with
the store untouched, reading no field and adding no record. -/
theorem C9_inode_decoder_checks_length_before_reading :
    (∀ (oid itemLen : Nat) (pth : List Nat) (s : Store) (d1 d2 : List Nat),
      sizeof_simple_inode_item ≤ itemLen →
      d1.take 160 = d2.take 160 →
      process_inode_item oid d1 itemLen pth s =
        process_inode_item oid d2 itemLen pth s) ∧
    (∀ (oid itemLen : Nat) (pth : List Nat) (s : Store) (d : List Nat),
      itemLen < sizeof_simple_inode_item →
      process_inode_item oid d itemLen pth s = s) := by
  constructor
  · intro oid itemLen pth s d1 d2 hlen htake
    unfold process_inode_item
    rw [if_neg (by unfold sizeof_simple_inode_item at hlen ⊢; omega)]
    rw [get_le64_agree d1 d2 160 16 htake (by omega),
      get_le64_agree d1 d2 160 136 htake (by omega),
      get_le32_agree d1 d2 160 52 htake (by omega),
      if_neg (by unfold sizeof_simple_inode_item at hlen ⊢; omega)]
  · intro oid itemLen pth s d hlen
    unfold process_inode_item
    rw [if_pos hlen]

/-- C9 witness: two 160-plus byte buffers agreeing on their first 160
bytes decode identically, and a 159-byte length is rejected without
touching the store. -/
theorem C9_witness :
    (sizeof_simple_inode_item ≤ 160 ∧
      process_inode_item 5 (List.replicate 160 7) 160 [47, 97] initStore =
        process_inode_item 5 (List.replicate 160 7 ++ [9]) 160 [47, 97]
          initStore) ∧
    (159 < sizeof_simple_inode_item ∧
      process_inode_item 5 (List.replicate 160 7) 159 [47, 97] initStore =
        initStore) :=
  ⟨⟨by decide,
    C9_inode_decoder_checks_length_before_reading.1 5 160 [47, 97] initStore
      (List.replicate 160 7) (List.replicate 160 7 ++ [9]) (by decide)
      (by decide)⟩,
   ⟨by decide,
    C9_inode_decoder_checks_length_before_reading.2 5 159 [47, 97] initStore
      (List.replicate 160 7) (by decide)⟩⟩

/-! ### Claim about exit codes -/

theorem getoptLoop_invalid_fmt (v : List Nat) (rest : List OptTok)
    (hv : ¬(v = jsonStr ∨ v = csvStr)) :
    ∀ (pre : List OptTok) (cur : List Nat),
      (∀ o ∈ pre, ∃ w, o = OptTok.fmt w ∧ (w = jsonStr ∨ w = csvStr)) →
      getoptLoop cur (pre ++ OptTok.fmt v :: rest) = .error (1, []) := by
  intro pre
  induction pre with
  | nil => intro cur _; simp [getoptLoop, hv]
  | cons o pre ih =>
    intro cur hval
    obtain ⟨w, rfl, hw⟩ := hval o (List.mem_cons_self o pre)
    simp only [List.cons_append, getoptLoop, if_pos hw]
    exact ih w (fun o ho => hval o (List.mem_cons_of_mem _ ho))

/-- C8: exit-code contract of main.  With options that parse: a path that
stats as a non-directory exits 1 with nothing on standard output; a missing
path argument exits 1; a path that cannot be stat-ed exits 1; a directory
whose listing cannot be produced (opendir fails for the probe fallback and
for the crawler) exits 1; a directory with any listing — the empty listing
and its zero records included — exits 0.  A -f value other than json or
csv, preceded by any run of valid -f options, exits 1 with nothing on
standard output. -/
theorem C8_exit_codes (inv : Invocation) :
    (∀ fmtv pt st, getoptLoop jsonStr inv.opts = .ok fmtv →
      inv.pathArg = some pt → pt.statResult = some st →
      S_ISDIR st.st_mode = false → mainRun inv = (1, [])) ∧
    (∀ fmtv, getoptLoop jsonStr inv.opts = .ok fmtv →
      inv.pathArg = none → (mainRun inv).1 = 1) ∧
    (∀ fmtv pt, getoptLoop jsonStr inv.opts = .ok fmtv →
      inv.pathArg = some pt → pt.statResult = none → (mainRun inv).1 = 1) ∧
    (∀ fmtv pt st, getoptLoop jsonStr inv.opts = .ok fmtv →
      inv.pathArg = some pt → pt.statResult = some st →
      S_ISDIR st.st_mode = true → pt.root = none → (mainRun inv).1 = 1) ∧
    (∀ fmtv pt st es, getoptLoop jsonStr inv.opts = .ok fmtv →
      inv.pathArg = some pt → pt.statResult = some st →
      S_ISDIR st.st_mode = true → pt.root = some es → (mainRun inv).1 = 0) ∧
    (∀ pre v rest, inv.opts = pre ++ OptTok.fmt v :: rest →
      (∀ o ∈ pre, ∃ w, o = OptTok.fmt w ∧ (w = jsonStr ∨ w = csvStr)) →
      ¬(v = jsonStr ∨ v = csvStr) → mainRun inv = (1, [])) := by
  refine ⟨?_, ?_, ?_, ?_, ?_, ?_⟩
  · intro fmtv pt st hloop hpath hstat hdir
    simp [mainRun, hloop, hpath, hstat, hdir]
  · intro fmtv hloop hpath
    simp [mainRun, hloop, hpath]
  · intro fmtv pt hloop hpath hstat
    simp [mainRun, hloop, hpath, hstat]
  · intro fmtv pt st hloop hpath hstat hdir hroot
    rcases hgp : gatherPhase pt.probeOpenOk pt.probeIoctlOk pt.pathStr pt.root
      with ⟨g1, g2⟩
    have hg := gatherPhase_fst pt.probeOpenOk pt.probeIoctlOk pt.pathStr pt.root
    rw [hgp, hroot] at hg
    simp only at hg
    subst hg
    simp [mainRun, hloop, hpath, hstat, hdir, hgp]
  · intro fmtv pt st es hloop hpath hstat hdir hroot
    rcases hgp : gatherPhase pt.probeOpenOk pt.probeIoctlOk pt.pathStr pt.root
      with ⟨g1, g2⟩
    have hg := gatherPhase_fst pt.probeOpenOk pt.probeIoctlOk pt.pathStr pt.root
    rw [hgp, hroot] at hg
    simp only at hg
    subst hg
    simp [mainRun, hloop, hpath, hstat, hdir, hgp]
  · intro pre v rest hopts hval hv
    have h := getoptLoop_invalid_fmt v rest hv pre jsonStr hval
    rw [← hopts] at h
    simp [mainRun, h]

/-- C8 witness: a regular-file path (mode bits of an ordinary file) exits 1
with empty standard output, and an empty directory exits 0. -/
theorem C8_witness :
    mainRun ⟨[], some ⟨some ⟨1, 2, 3, 33188⟩, none, true, true, [47]⟩⟩ =
      (1, []) ∧
    (mainRun ⟨[], some ⟨some ⟨1, 0, 3, 16877⟩, some [], true, true, [47]⟩⟩).1 =
      0 :=
  ⟨(C8_exit_codes ⟨[], some ⟨some ⟨1, 2, 3, 33188⟩, none, true, true, [47]⟩⟩).1
      jsonStr _ _ rfl rfl rfl (by decide),
   (C8_exit_codes
      ⟨[], some ⟨some ⟨1, 0, 3, 16877⟩, some [], true, true, [47]⟩⟩).2.2.2.2.1
      jsonStr _ _ [] rfl rfl rfl (by decide) rfl⟩

end BtrfsIndexer
